import Mathlib

/-
  Verification of the eas-attestor-github ingestion pipeline.

  Shallow embedding of the python sources under src/src/main/python:
  state_manager.py, basescan.py, gist_validator.py, contract.py and
  process_attestations.py. External effects (HTTP requests, the chain RPC,
  signature recovery from the eth_account library, the GitHub API) are
  passed in as explicit oracle parameters; everything the repository itself
  computes is translated line by line into executable Lean definitions.
-/

namespace StateManager

/--
On-disk content of the per-network state file, as the python code can
observe it.  missing: the file does not exist.  truncated: the file exists
but does not parse as JSON (in particular the zero-length content right
after open with mode w has truncated it).  noKey: valid JSON object without
the last_processed_block key.  record: valid JSON object holding the key
and the network name that update_last_processed_block also writes.
-/
inductive FileContent
  | missing
  | truncated
  | noKey
  | record (last_processed_block : Nat) (network : String)
  deriving DecidableEq

/-- Embeds StateManager._get_default_starting_block: the defaults dict
lookup with fallback 0. -/
def _get_default_starting_block (network : String) : Nat :=
  if network = "sepolia" then 7000000
  else if network = "mainnet" then 10000000
  else 0

/-- Embeds StateManager.get_last_processed_block: a missing file, an
unreadable file (json.load raises, the except branch returns the default)
or an object without the key all degrade to the network default; otherwise
the stored value is returned. -/
def get_last_processed_block (network : String) (file : FileContent) : Nat :=
  match file with
  | .missing => _get_default_starting_block network
  | .truncated => _get_default_starting_block network
  | .noKey => _get_default_starting_block network
  | .record b _ => b

/-- Embeds StateManager.update_last_processed_block: existing readable data
is loaded (or an empty dict is used), the key and the network name are set,
and the file is rewritten in place.  If the existing file is unreadable,
json.load raises inside the try block and the function re-raises (error). -/
def update_last_processed_block (prior : FileContent) (network : String)
    (block_number : Nat) : Except Unit FileContent :=
  match prior with
  | .truncated => .error ()
  | _ => .ok (.record block_number network)

/-- The sequence of on-disk states the file passes through during
update_last_processed_block: the prior content, then the truncated file the
moment open with mode w succeeds, then the freshly dumped record.  When the
prior content is unreadable the function raises while reading, before any
write, so the file is left untouched.  No temporary file or rename is
involved at any point. -/
def update_states (prior : FileContent) (network : String)
    (block_number : Nat) : List FileContent :=
  match prior with
  | .truncated => [prior]
  | _ => [prior, .truncated, .record block_number network]

/-- A file content is legible as a checkpoint when it parses as a JSON
record carrying the last_processed_block key. -/
def legible : FileContent → Bool
  | .record _ _ => true
  | _ => false

end StateManager

namespace Str

/-- Lower-casing a string, character by character (python str.lower for the
ASCII data handled here). -/
def lower (s : String) : String := String.mk (s.data.map Char.toLower)

/-- Tests whether p is a leading segment of s (python str.startswith). -/
def begins (s p : String) : Bool := p.data.isPrefixOf s.data

/-- Splits a character list at every occurrence of the separator character,
matching python str.split with a single-character separator: the result is
never empty and an empty input yields one empty piece. -/
def splitChar (sep : Char) : List Char → List (List Char)
  | [] => [[]]
  | c :: rest =>
    let r := splitChar sep rest
    if c == sep then [] :: r
    else
      match r with
      | h :: t => (c :: h) :: t
      | [] => [[c]]

/-- Breaks a list at the first occurrence of the separator list, returning
the part before it and the part after it, or none when the separator does
not occur. -/
def breakOnSub (sep : List Char) : List Char → Option (List Char × List Char)
  | [] => if sep.isEmpty then some ([], []) else none
  | c :: rest =>
    if sep.isPrefixOf (c :: rest) then some ([], (c :: rest).drop sep.length)
    else
      match breakOnSub sep rest with
      | some (b, a) => some (c :: b, a)
      | none => none

/-- Drops the given character from both ends (python str.strip with one
separator character). -/
def stripChar (sep : Char) (l : List Char) : List Char :=
  ((l.dropWhile (fun c => c == sep)).reverse.dropWhile (fun c => c == sep)).reverse

end Str

namespace GistValidator

/-- True for the characters matched by the regex class a-fA-F0-9. -/
def isHexDigitChar (c : Char) : Bool :=
  (('0' ≤ c && c ≤ '9') || ('a' ≤ c && c ≤ 'f') || ('A' ≤ c && c ≤ 'F'))

/--
The parsed JSON claim document, as the python code reads it with dict
access.  Each required key is an Option (none models a missing key); the
timestamp is the integer obtained by int() on the stored value, none when
the key is missing or the value does not parse.  gist_url models the one
extra key that contract.create_attestation later consults with
dict.get; further unrecognized keys play no role anywhere in the code.
-/
structure GistData where
  message : Option String
  signature : Option String
  address : Option String
  github_username : Option String
  timestamp : Option Int
  gist_url : Option String
  deriving DecidableEq

/-- Models Web3.is_address from the web3 library: a 0x-prefixed string of
40 hex digits.  The library additionally enforces the EIP-55 checksum for
mixed-case input; every address handled in the theorems below is uniform
lowercase, where the two notions agree. -/
def is_address (s : String) : Bool :=
  Str.begins s "0x" && s.data.length == 42 && (s.data.drop 2).all isHexDigitChar

/-- Embeds GistValidator._extract_gist_id, including the urlparse step for
the URL shapes it distinguishes: with a scheme separator, netloc is the
segment between the separator and the next slash and the path is the rest;
without one, netloc is empty (and the check against the gist host fails). -/
def _extract_gist_id (gist_url : String) : Option String :=
  let parsed :=
    match Str.breakOnSub "://".data gist_url.data with
    | none => (([] : List Char), gist_url.data)
    | some (_, after) =>
      (after.takeWhile (fun c => !(c == '/')), after.dropWhile (fun c => !(c == '/')))
  if !(parsed.1 = "gist.github.com".data) then none
  else
    let path_parts := Str.splitChar '/' (Str.stripChar '/' parsed.2)
    if path_parts.length < 2 then none
    else
      match path_parts.get? 1 with
      | none => none
      | some gist_id =>
        if gist_id.isEmpty then none
        else if gist_id.all isHexDigitChar then some (String.mk gist_id)
        else none

/-- Truthiness of an optional string field, as python sees it: present and
non-empty. -/
def truthyStr : Option String → Bool
  | none => false
  | some s => !s.data.isEmpty

/-- Embeds GistValidator._validate_json_structure: every required field
present and truthy, then the address format check, then the signature
format check (0x prefixed, 132 characters in total). -/
def _validate_json_structure (d : GistData) : Bool :=
  truthyStr d.message &&
  truthyStr d.signature &&
  truthyStr d.address &&
  truthyStr d.github_username &&
  (match d.timestamp with
   | none => false
   | some t => !(t == 0)) &&
  (match d.address with
   | none => false
   | some a => is_address a) &&
  (match d.signature with
   | none => false
   | some s => Str.begins s "0x" && s.data.length == 132)

/-- Embeds GistValidator._validate_signature with the eth_account recovery
primitive as an oracle: recover message signature is the address that
recover_message returns, none when it raises.  A missing key or a failed
recovery lands in the except branch and yields false. -/
def _validate_signature (recover : String → String → Option String)
    (d : GistData) : Bool :=
  match d.message, d.signature, d.address with
  | some m, some s, some a =>
    (match recover m s with
     | none => false
     | some r => Str.lower r == Str.lower a)
  | _, _, _ => false

/-- Embeds GistValidator._validate_timestamp at its default max_age_hours
of 24 (the only way the code calls it): too old when now minus the claim
timestamp exceeds 86400 seconds, too far ahead when the claim timestamp
exceeds now plus 300 seconds.  A missing or unparseable timestamp raises
and yields false. -/
def _validate_timestamp (now : Int) (d : GistData) : Bool :=
  match d.timestamp with
  | none => false
  | some t =>
    if now - t > 24 * 3600 then false
    else if t > now + 300 then false
    else true

/-- Embeds GistValidator._recover_address_from_signature. -/
def _recover_address_from_signature (recover : String → String → Option String)
    (d : GistData) : Option String :=
  match d.message, d.signature with
  | some m, some s => recover m s
  | _, _ => none

/-- Embeds GistValidator.verify_signature_matches_address: the recovered
address must be truthy and equal, lower-cased, to the on-chain submitter
of the event. -/
def verify_signature_matches_address (recover : String → String → Option String)
    (d : GistData) (submitter_address : String) : Bool :=
  match _recover_address_from_signature recover d with
  | none => false
  | some r => !r.data.isEmpty && (Str.lower r == Str.lower submitter_address)

/-- Embeds GistValidator.fetch_and_validate_gist.  The network fetch of the
gist content (_fetch_gist_content, a GitHub API call plus JSON selection)
is the oracle fetchGist, keyed by the extracted gist id; none covers every
failure path of that function.  The validation gates then run in source
order and any failure yields none. -/
def fetch_and_validate_gist (recover : String → String → Option String)
    (now : Int) (fetchGist : String → Option GistData)
    (gist_url : String) : Option GistData :=
  match _extract_gist_id gist_url with
  | none => none
  | some gist_id =>
    match fetchGist gist_id with
    | none => none
    | some d =>
      if !_validate_json_structure d then none
      else if !_validate_signature recover d then none
      else if !_validate_timestamp now d then none
      else some d

end GistValidator

namespace BasescanClient

/-- The fields of a raw Basescan log record that the parser consumes. -/
structure LogRecord where
  topics : List String
  data : String
  timeStamp : String
  transactionHash : String
  blockNumber : String
  deriving DecidableEq

/-- The event dictionary _parse_gist_submitted_event builds. -/
structure SubmissionEvent where
  submitter : String
  gist_url : String
  timestamp : Nat
  transactionHash : String
  blockNumber : Nat
  deriving DecidableEq

/-- Value of one hex digit, none for any other character.  The code-point
ranges are 48-57 for the decimal digits, 97-102 for a-f and 65-70 for A-F,
valued 0-9, 10-15 and 10-15 respectively. -/
def hexDigitVal (c : Char) : Option Nat :=
  let n := c.toNat
  if 48 ≤ n && n ≤ 57 then some (n - 48)
  else if 97 ≤ n && n ≤ 102 then some (n - 87)
  else if 65 ≤ n && n ≤ 70 then some (n - 55)
  else none

/-- Reads a non-empty list of hex digits as a number, none on the empty
list or any non-hex character. -/
def hexToNat : List Char → Option Nat
  | [] => none
  | l => l.foldl
      (fun acc c =>
        match acc, hexDigitVal c with
        | some n, some d => some (n * 16 + d)
        | _, _ => none)
      (some 0)

/-- Models the python int with base 16 for the inputs at hand: an optional
0x or 0X prefix followed by hex digits; none models the ValueError path. -/
def parseHexInt (s : String) : Option Nat :=
  let l := s.data
  let l := if l.take 2 = ['0', 'x'] || l.take 2 = ['0', 'X'] then l.drop 2 else l
  hexToNat l

/-- Models the python int on a decimal string; none models ValueError. -/
def parseDecInt (s : String) : Option Nat :=
  let l := s.data
  if l.isEmpty then none
  else if l.all (fun c => 48 ≤ c.toNat && c.toNat ≤ 57) then
    some (l.foldl (fun a c => a * 10 + c.toNat - 48) 0)
  else none

/-- The last n characters of a string (python slice with negative start). -/
def lastChars (n : Nat) (s : String) : String :=
  String.mk ((s.data.reverse.take n).reverse)

/-- Embeds BasescanClient._parse_gist_submitted_event.  The submitter is
0x plus the last 40 characters of topics[1]; the data payload is read but
never decoded; the gist_url field is the literal string placeholder; the
timestamp comes from the timeStamp field of the log (hex or decimal); any
exception (missing topic, unparseable number) yields none through the
except branch. -/
def _parse_gist_submitted_event (log : LogRecord) : Option SubmissionEvent :=
  match log.topics.get? 1 with
  | none => none
  | some t1 =>
    let submitter := "0x" ++ lastChars 40 t1
    let ts :=
      if Str.begins log.timeStamp "0x" then parseHexInt log.timeStamp
      else parseDecInt log.timeStamp
    match ts, parseHexInt log.blockNumber with
    | some timestamp, some blockNumber =>
      some ⟨submitter, "placeholder", timestamp, log.transactionHash, blockNumber⟩
    | _, _ => none

/-- Decodes a list of hex digit pairs into the characters with those byte
values. -/
def decodeHexBytes : List Char → List Char
  | c1 :: c2 :: rest =>
    (match hexDigitVal c1, hexDigitVal c2 with
     | some h, some l => [Char.ofNat (16 * h + l)]
     | _, _ => []) ++ decodeHexBytes rest
  | _ => []

/-- One 32-byte word of an ABI payload, as a number: the 64 hex characters
starting at character position p. -/
def abiWordAt (chars : List Char) (p : Nat) : Option Nat :=
  let w := (chars.drop p).take 64
  if w.length = 64 then hexToNat w else none

/-- Modelled from the spec: the repository never implements the ABI
decoding of the event payload (the parser above carries a TODO and returns
a placeholder), so the reference semantics comes from sections 4.2 and 6
of the spec: the data field of a GistSubmitted log is the standard ABI
encoding of the non-indexed pair (string gistUrl, uint256 timestamp) —
word 0 is the byte offset of the string head, word 1 is the timestamp, and
at the offset sit the byte length of the string followed by its bytes,
everything hex-encoded after a 0x prefix. -/
def abiDecodeGistSubmitted (data : String) : Option (String × Nat) :=
  let chars := if Str.begins data "0x" then data.data.drop 2 else data.data
  match abiWordAt chars 0, abiWordAt chars 64 with
  | some off, some ts =>
    let p := 2 * off
    match abiWordAt chars p with
    | some len =>
      let body := (chars.drop (p + 64)).take (2 * len)
      if body.length = 2 * len then some (String.mk (decodeHexBytes body), ts)
      else none
    | none => none
  | _, _ => none

/-- One upstream HTTP attempt inside _make_request: either the requests
call raises (network error, non-2xx status, invalid JSON body), or it
yields a decoded API response. -/
structure ApiResponse where
  status : String
  message : String
  rateLimitBody : Bool
  logs : List LogRecord
  deriving DecidableEq

inductive Attempt
  | raises
  | returns (r : ApiResponse)
  deriving DecidableEq

/-- Embeds the attempt loop of BasescanClient._make_request over the list
of remaining attempt outcomes (the caller passes exactly three).  On a
raising attempt the code continues unless it is the last one, where it
re-raises; on a rate-limited body it continues unless it is the last
attempt, where control falls through to return data; any other response is
returned at once. -/
def makeRequestLoop : List Attempt → Except Unit ApiResponse
  | [] => .error ()
  | [a] =>
    match a with
    | .raises => .error ()
    | .returns r => .ok r
  | a :: rest =>
    match a with
    | .raises => makeRequestLoop rest
    | .returns r =>
      if r.message = "NOTOK" && r.rateLimitBody then makeRequestLoop rest
      else .ok r

/-- Embeds BasescanClient._make_request: three attempts through the loop
above.  The attempts argument is the oracle for the three upstream HTTP
outcomes. -/
def _make_request (a0 a1 a2 : Attempt) : Except Unit ApiResponse :=
  makeRequestLoop [a0, a1, a2]

/-- Embeds BasescanClient._get_contract_address: both configured addresses
are the zero placeholder, so the function raises ValueError for every
network; none models that raise. -/
def _get_contract_address (network : String) : Option String :=
  let addresses : List (String × String) :=
    [("sepolia", "0x0000000000000000000000000000000000000000"),
     ("mainnet", "0x0000000000000000000000000000000000000000")]
  match addresses.lookup network with
  | none => none
  | some a => if a = "0x0000000000000000000000000000000000000000" then none else some a

/-- Embeds BasescanClient.get_gist_submission_events.  The contract
address defaults through _get_contract_address when not supplied; the
request parameters feed _make_request, abstracted by the three attempt
outcomes.  Every exception inside the try block — including the address
lookup raising and _make_request exhausting its attempts — is caught by
the outer except branch, which returns the empty list; a response whose
status is not the string 1 also returns the empty list.  Logs that fail to
parse are skipped with a warning. -/
def get_gist_submission_events (network : String)
    (contract_address : Option String) (a0 a1 a2 : Attempt) :
    List SubmissionEvent :=
  match (match contract_address with
         | some a => some a
         | none => _get_contract_address network) with
  | none => []
  | some _ =>
    match _make_request a0 a1 a2 with
    | .error _ => []
    | .ok r =>
      if r.status = "1" then r.logs.filterMap _parse_gist_submitted_event
      else []

end BasescanClient

namespace AttestationContract

/-- The unset sentinel that _set_placeholder_values installs. -/
def placeholder_address : String := "0x0000000000000000000000000000000000000000"

/-- The three arguments of the createAttestation contract call. -/
structure TxArgs where
  eth_address : String
  github_username : String
  gist_url : String
  deriving DecidableEq

/-- Embeds AttestationContract.create_attestation.  With the placeholder
registry address the function returns False before building anything.
Otherwise it builds the createAttestation transaction whose gistUrl
argument is the dict.get of the key gist_url from the claim document with
default the literal string unknown, signs and broadcasts it; the send
oracle supplies the boolean receipt outcome (false also covers the raising
paths: timeout, send failure, reverted status).  The first component is
the argument triple of the transaction that was sent, none when the call
refused or nothing was broadcast. -/
def create_attestation (registry_address : String) (send : TxArgs → Bool)
    (eth_address github_username : String) (gist_data : GistValidator.GistData) :
    Option TxArgs × Bool :=
  if registry_address = placeholder_address then (none, false)
  else
    let args : TxArgs := ⟨eth_address, github_username, gist_data.gist_url.getD "unknown"⟩
    (some args, send args)

end AttestationContract

namespace ProcessAttestations

open StateManager BasescanClient GistValidator AttestationContract

/-- Result of processing one event: the boolean process_single_event
returns, and the argument triple of the attestation transaction that was
actually sent on-chain (none when no transaction was broadcast). -/
structure ProcResult where
  success : Bool
  attempted : Option TxArgs
  deriving DecidableEq

/-- Embeds process_single_event: fetch and validate the gist named by the
event, verify the recovered signer against the on-chain submitter, then
call create_attestation with the address and username taken from the claim
document.  Every failure, including a raising dict access, is caught and
returns False with nothing sent. -/
def process_single_event (recover : String → String → Option String)
    (now : Int) (fetchGist : String → Option GistData)
    (registry_address : String) (send : TxArgs → Bool)
    (event : SubmissionEvent) : ProcResult :=
  match fetch_and_validate_gist recover now fetchGist event.gist_url with
  | none => ⟨false, none⟩
  | some gist_data =>
    if verify_signature_matches_address recover gist_data event.submitter then
      match gist_data.address, gist_data.github_username with
      | some a, some g =>
        let r := create_attestation registry_address send a g gist_data
        ⟨r.2, r.1⟩
      | _, _ => ⟨false, none⟩
    else ⟨false, none⟩

/-- Outcome of one iteration of the per-event loop in main: the call
returned True, returned False, or raised (the except branch inside the
loop catches it). -/
inductive EventOutcome
  | ok
  | failed
  | raised
  deriving DecidableEq

/-- The success and failure counters accumulated by the per-event loop of
main: a True return increments processed, a False return or a caught
exception increments failed, and no outcome stops the loop. -/
def countOutcomes (outcome : SubmissionEvent → EventOutcome) :
    List SubmissionEvent → Nat × Nat
  | [] => (0, 0)
  | e :: rest =>
    let pf := countOutcomes outcome rest
    match outcome e with
    | .ok => (pf.1 + 1, pf.2)
    | .failed => (pf.1, pf.2 + 1)
    | .raised => (pf.1, pf.2 + 1)

/-- One run of main, with its external collaborators as oracles: the
network name from the environment, the state file content the StateManager
will read, the chain head the RPC reports, the result of the Basescan
fetch for a given block range, and the outcome of processing each event. -/
structure Env where
  network : String
  prior_file : StateManager.FileContent
  head : Nat
  fetch : Nat → Nat → List SubmissionEvent
  processEvent : SubmissionEvent → EventOutcome

/-- What one run of main leaves behind: the block range passed to the
event fetch (the code computes and issues it unconditionally), the state
file after the final checkpoint write (error when that write raised, which
main treats as fatal), and the two counters. -/
structure RunResult where
  queriedRange : Option (Nat × Nat)
  file : Except Unit StateManager.FileContent
  processed : Nat
  failed : Nat

/-- Embeds main after client construction: read the checkpoint, read the
chain head, fetch events over (last_block, current_block), then either the
empty branch — update the checkpoint to the head and return — or the
per-event loop followed by the same checkpoint update.  Both branches
write the queried head, whatever the counters say. -/
def mainRun (env : Env) : RunResult :=
  let last_block := get_last_processed_block env.network env.prior_file
  let current_block := env.head
  let events := env.fetch last_block current_block
  if events.isEmpty then
    { queriedRange := some (last_block, current_block)
      file := update_last_processed_block env.prior_file env.network current_block
      processed := 0
      failed := 0 }
  else
    let pf := countOutcomes env.processEvent events
    { queriedRange := some (last_block, current_block)
      file := update_last_processed_block env.prior_file env.network current_block
      processed := pf.1
      failed := pf.2 }

end ProcessAttestations

namespace Samples

open StateManager BasescanClient GistValidator AttestationContract ProcessAttestations

/-- A well-formed 65-byte signature string: 0x plus 130 hex characters. -/
def sigA : String := "0x" ++ String.mk (List.replicate 130 'a')

/-- A lowercase address used throughout the concrete runs. -/
def addrA : String := "0xaaaaaaaaaaaaaaaaaaaaaaaaaaaaaaaaaaaaaaaa"

/-- A claim document holding exactly the required keys, all valid. -/
def docA : GistData :=
  ⟨some "gist attestation for alice", some sigA, some addrA, some "alice",
   some 1000, none⟩

/-- The same claim document with an extra gist_url key, which none of the
validation gates inspects. -/
def docB : GistData :=
  ⟨some "gist attestation for alice", some sigA, some addrA, some "alice",
   some 1000, some "https://example.com/not-the-event-url"⟩

/-- A recovery oracle for which sigA over the message of docA recovers
addrA and every other pair fails. -/
def recA : String → String → Option String := fun m s =>
  if m = "gist attestation for alice" ∧ s = sigA then some addrA else none

/-- A gist host serving docA under the id abc123. -/
def fetchA : String → Option GistData := fun gid =>
  if gid = "abc123" then some docA else none

/-- A gist host serving docB under the id abc123. -/
def fetchB : String → Option GistData := fun gid =>
  if gid = "abc123" then some docB else none

/-- An on-chain event whose submitter matches the signer of docA. -/
def eventA : SubmissionEvent :=
  ⟨addrA, "https://gist.github.com/alice/abc123", 1000, "0xtxhashA", 103⟩

/-- A second such event, used with docB. -/
def eventB : SubmissionEvent :=
  ⟨addrA, "https://gist.github.com/alice/abc123", 1000, "0xtxhashB", 104⟩

/-- A configured (non-placeholder) registry address. -/
def regA : String := "0x1111111111111111111111111111111111111111"

/-- A chain on which every broadcast transaction confirms. -/
def sendTrue : TxArgs → Bool := fun _ => true

/-- A string of n zero characters. -/
def zeros (n : Nat) : String := String.mk (List.replicate n '0')

/-- An ABI data payload encoding the pair (gist, 255): word 0 holds the
byte offset 64 of the string head, word 1 the timestamp 255, word 2 the
byte length 4, then the four bytes of gist padded to a word. -/
def sampleData : String :=
  "0x" ++ zeros 62 ++ "40" ++ zeros 62 ++ "ff" ++ zeros 62 ++ "04" ++
    "67697374" ++ zeros 56

/-- A raw log record carrying sampleData, the submitter in topics[1], the
block timestamp 0x64 = 100 and the block number 0x10 = 16. -/
def sampleLog : LogRecord :=
  ⟨["0xddf252ad", "0x" ++ zeros 24 ++ "aaaaaaaaaaaaaaaaaaaaaaaaaaaaaaaaaaaaaaaa"],
   sampleData, "0x64", "0xtxhashC", "0x10"⟩

/-- A configured contract address handed to the event query. -/
def contractA : String := "0x2222222222222222222222222222222222222222"

/-- A successful API response confirming zero events. -/
def okEmpty : ApiResponse := ⟨"1", "OK", false, []⟩

/-- A run whose checkpoint stands at 100 and whose head is 105, where all
three event-query attempts raise. -/
def envOutage : Env :=
  ⟨"sepolia", .record 100 "sepolia", 105,
   fun _ _ => get_gist_submission_events "sepolia" (some contractA) .raises .raises .raises,
   fun _ => .raised⟩

/-- Two bare events for a mixed batch. -/
def evX : SubmissionEvent := ⟨addrA, "placeholder", 1000, "0xtx1", 101⟩

def evY : SubmissionEvent := ⟨addrA, "placeholder", 1000, "0xtx2", 102⟩

/-- A run with a fresh state file, head 105 and a two-event batch in which
the first event succeeds and the second raises. -/
def env4 : Env :=
  ⟨"sepolia", .missing, 105, fun _ _ => [evX, evY],
   fun e => if e.blockNumber = 101 then .ok else .raised⟩

/-- A run whose head equals the stored checkpoint. -/
def env5a : Env :=
  ⟨"devnet", .record 100 "devnet", 100, fun _ _ => [], fun _ => .ok⟩

/-- A run whose head lies five blocks past the stored checkpoint. -/
def env5b : Env :=
  ⟨"devnet", .record 100 "devnet", 105, fun _ _ => [], fun _ => .ok⟩

/-- A run whose queried head 50 lies below the stored checkpoint 100. -/
def env6 : Env :=
  ⟨"devnet", .record 100 "devnet", 50, fun _ _ => [], fun _ => .ok⟩

/-- A run whose queried head 105 lies above the stored checkpoint 100. -/
def env6w : Env :=
  ⟨"devnet", .record 100 "devnet", 105, fun _ _ => [], fun _ => .ok⟩

/-- A claim document whose only interesting field is its timestamp. -/
def tsDoc (t : Int) : GistData :=
  ⟨some "m", some "s", some "a", some "u", some t, none⟩

end Samples

section Theorems

open StateManager BasescanClient GistValidator AttestationContract ProcessAttestations

set_option maxRecDepth 8000

/-- Helper: the per-event loop accounts for every event exactly once. -/
theorem countOutcomes_total (outcome : SubmissionEvent → EventOutcome)
    (l : List SubmissionEvent) :
    (countOutcomes outcome l).1 + (countOutcomes outcome l).2 = l.length := by
  induction l with
  | nil => rfl
  | cons e rest ih =>
    cases h : outcome e <;> simp only [countOutcomes, h, List.length_cons] <;> omega

/-- Helper: both branches of main end with the same checkpoint write. -/
theorem mainRun_file (env : Env) :
    (mainRun env).file =
      update_last_processed_block env.prior_file env.network env.head := by
  simp only [mainRun]
  split <;> rfl

/-- Helper: the checkpoint write succeeds on every readable prior file. -/
theorem update_ok_of_readable (prior : StateManager.FileContent)
    (network : String) (b : Nat) (h : prior ≠ .truncated) :
    update_last_processed_block prior network b = .ok (.record b network) := by
  cases prior with
  | truncated => exact absurd rfl h
  | missing => rfl
  | noKey => rfl
  | record x y => rfl

/-- C1: evaluating the code at a run in which all three event-query
attempts raise: get_gist_submission_events swallows the final exception
and returns the empty list — literally the same value as a confirmed
zero-event response — and main, upon the empty list, advances the
checkpoint from 100 to the queried head 105 instead of aborting with the
prior checkpoint kept.  This is the historical defect the spec names. -/
theorem C1_outage_collapses_to_empty_and_advances :
    get_gist_submission_events "sepolia" (some Samples.contractA)
      .raises .raises .raises = [] ∧
    get_gist_submission_events "sepolia" (some Samples.contractA)
      (.returns Samples.okEmpty) (.returns Samples.okEmpty)
      (.returns Samples.okEmpty) = [] ∧
    (mainRun Samples.envOutage).file = .ok (.record 105 "sepolia") ∧
    get_last_processed_block "sepolia" (.record 100 "sepolia") = 100 :=
  ⟨rfl, rfl, rfl, rfl⟩

/-- C3: evaluating the parser at a log whose data payload ABI-encodes the
string gist and the timestamp 255: the code emits the literal placeholder
string for gist_url and copies the block timeStamp 100 into the timestamp
field, while a full ABI decode of the same payload yields gist and 255. -/
theorem C3_parse_is_placeholder_not_abi_decode :
    _parse_gist_submitted_event Samples.sampleLog =
      some ⟨"0xaaaaaaaaaaaaaaaaaaaaaaaaaaaaaaaaaaaaaaaa", "placeholder",
            100, "0xtxhashC", 16⟩ ∧
    abiDecodeGistSubmitted Samples.sampleLog.data = some ("gist", 255) ∧
    ("placeholder" : String) ≠ "gist" ∧ (100 : Nat) ≠ 255 :=
  ⟨by decide, by decide, by decide, by decide⟩

/-- C4: whenever the prior state file is readable, a run ends with the
checkpoint set to the queried chain head — on the empty branch and on the
batch branch alike — and the per-event loop accounts for every fetched
event in the two counters, so no per-event failure aborts the batch. -/
theorem C4_head_written_and_all_events_counted (env : Env)
    (h : env.prior_file ≠ .truncated) :
    (mainRun env).file = .ok (.record env.head env.network) ∧
    (mainRun env).processed + (mainRun env).failed =
      (env.fetch (get_last_processed_block env.network env.prior_file)
        env.head).length := by
  constructor
  · rw [mainRun_file]
    exact update_ok_of_readable _ _ _ h
  · simp only [mainRun]
    split
    · next hemp =>
      simp only [List.isEmpty_iff] at hemp
      simp [hemp]
    · exact countOutcomes_total _ _

/-- Witness for C4 at a run with a fresh state file, head 105 and a
two-event batch in which one event succeeds and the other raises. -/
theorem C4_head_written_and_all_events_counted_witness :
    (mainRun Samples.env4).file = .ok (.record 105 "sepolia") ∧
    (mainRun Samples.env4).processed + (mainRun Samples.env4).failed =
      (Samples.env4.fetch (get_last_processed_block "sepolia" .missing)
        105).length :=
  C4_head_written_and_all_events_counted Samples.env4 (by decide)

/-- C5 counterexample: with the checkpoint stored at 100, a run whose head
is also 100 still issues the event query, over (100, 100) — the claim
requires the fetch to be skipped entirely — and a run whose head is 105
queries (100, 105), starting at the checkpoint itself rather than one
block past it. -/
theorem C5_counterexample :
    (mainRun Samples.env5a).queriedRange = some (100, 100) ∧
    (mainRun Samples.env5b).queriedRange = some (100, 105) :=
  ⟨rfl, rfl⟩

/-- C5 as amended: every run queries the event source exactly over the
range from the stored checkpoint (inclusive, not checkpoint plus one) to
the queried head, with no skip when the head does not exceed the
checkpoint. -/
theorem C5_range_starts_at_checkpoint (env : Env) :
    (mainRun env).queriedRange =
      some (get_last_processed_block env.network env.prior_file, env.head) := by
  simp only [mainRun]
  split <;> rfl

/-- C6 counterexample: a run over a prior checkpoint of 100 whose queried
head is 50 completes and stores 50, a strictly smaller value than the 100
stored before the run. -/
theorem C6_counterexample :
    (mainRun Samples.env6).file = .ok (.record 50 "devnet") ∧
    get_last_processed_block "devnet" (.record 50 "devnet") <
      get_last_processed_block "devnet" (.record 100 "devnet") :=
  ⟨rfl, by decide⟩

/-- C6 as amended: the store writes whatever head the run queried, so the
stored checkpoint is non-decreasing exactly when each completed run sees a
chain head at least as large as the prior checkpoint. -/
theorem C6_monotone_when_head_not_behind (env : Env)
    (f : StateManager.FileContent)
    (h1 : env.prior_file ≠ .truncated)
    (h2 : get_last_processed_block env.network env.prior_file ≤ env.head)
    (h3 : (mainRun env).file = .ok f) :
    get_last_processed_block env.network env.prior_file ≤
      get_last_processed_block env.network f := by
  rw [mainRun_file, update_ok_of_readable _ _ _ h1] at h3
  injection h3 with h4
  rw [← h4]
  exact h2

/-- Witness for C6 at a run from checkpoint 100 to head 105. -/
theorem C6_monotone_when_head_not_behind_witness :
    get_last_processed_block "devnet" (.record 100 "devnet") ≤
      get_last_processed_block "devnet" (.record 105 "devnet") :=
  C6_monotone_when_head_not_behind Samples.env6w (.record 105 "devnet")
    (by decide) (by decide) rfl

/-- C10: with a missing, unreadable or keyless state file, the checkpoint
read returns the network default starting block: 7000000 on sepolia,
10000000 on mainnet and 0 on every other network name. -/
theorem C10_default_starting_blocks (network : String) :
    (network ≠ "sepolia" → network ≠ "mainnet" →
      get_last_processed_block network .missing = 0 ∧
      get_last_processed_block network .truncated = 0 ∧
      get_last_processed_block network .noKey = 0) ∧
    get_last_processed_block "sepolia" .missing = 7000000 ∧
    get_last_processed_block "sepolia" .truncated = 7000000 ∧
    get_last_processed_block "sepolia" .noKey = 7000000 ∧
    get_last_processed_block "mainnet" .missing = 10000000 ∧
    get_last_processed_block "mainnet" .truncated = 10000000 ∧
    get_last_processed_block "mainnet" .noKey = 10000000 := by
  refine ⟨fun h1 h2 => ?_, rfl, rfl, rfl, rfl, rfl, rfl⟩
  simp [get_last_processed_block, _get_default_starting_block, h1, h2]

/-- Witness for C10 at the network name devnet. -/
theorem C10_default_starting_blocks_witness :
    get_last_processed_block "devnet" .missing = 0 ∧
    get_last_processed_block "devnet" .truncated = 0 ∧
    get_last_processed_block "devnet" .noKey = 0 :=
  (C10_default_starting_blocks "devnet").1 (by decide) (by decide)

/-- Helper: a document that comes back from fetch_and_validate_gist is the
fetched one and passed all three validation gates. -/
theorem fetch_and_validate_gist_gates
    (recover : String → String → Option String) (now : Int)
    (fetchGist : String → Option GistData) (url : String) (d : GistData)
    (h : fetch_and_validate_gist recover now fetchGist url = some d) :
    ∃ gid, _extract_gist_id url = some gid ∧ fetchGist gid = some d ∧
      _validate_json_structure d = true ∧
      _validate_signature recover d = true ∧
      _validate_timestamp now d = true := by
  unfold fetch_and_validate_gist at h
  cases hgid : _extract_gist_id url with
  | none => simp [hgid] at h
  | some gid =>
    cases hf : fetchGist gid with
    | none => simp [hgid, hf] at h
    | some d0 =>
      cases h1 : _validate_json_structure d0 with
      | false => simp [hgid, hf, h1] at h
      | true =>
        cases h2 : _validate_signature recover d0 with
        | false => simp [hgid, hf, h1, h2] at h
        | true =>
          cases h3 : _validate_timestamp now d0 with
          | false => simp [hgid, hf, h1, h2, h3] at h
          | true =>
            simp only [hgid, hf, h1, h2, h3, Bool.not_true, Bool.false_eq_true,
              if_false, Option.some.injEq] at h
            subst h
            exact ⟨gid, rfl, hf, h1, h2, h3⟩

/-- Helper: what a passing cryptographic gate says, field by field. -/
theorem validate_signature_fields
    (recover : String → String → Option String) (d : GistData)
    (h : _validate_signature recover d = true) :
    ∃ m s a r, d.message = some m ∧ d.signature = some s ∧
      d.address = some a ∧ recover m s = some r ∧
      Str.lower r = Str.lower a := by
  unfold _validate_signature at h
  cases hm : d.message with
  | none => simp [hm] at h
  | some m =>
    cases hs : d.signature with
    | none => simp [hm, hs] at h
    | some s =>
      cases ha : d.address with
      | none => simp [hm, hs, ha] at h
      | some a =>
        cases hr : recover m s with
        | none => simp [hm, hs, ha, hr] at h
        | some r =>
          simp only [hm, hs, ha, hr, beq_iff_eq] at h
          exact ⟨m, s, a, r, rfl, rfl, rfl, hr, h⟩

/-- Helper: what a passing submitter comparison says, field by field. -/
theorem verify_matches_fields
    (recover : String → String → Option String) (d : GistData)
    (submitter : String)
    (h : verify_signature_matches_address recover d submitter = true) :
    ∃ m s r, d.message = some m ∧ d.signature = some s ∧
      recover m s = some r ∧ Str.lower r = Str.lower submitter := by
  unfold verify_signature_matches_address _recover_address_from_signature at h
  cases hm : d.message with
  | none => simp [hm] at h
  | some m =>
    cases hs : d.signature with
    | none => simp [hm, hs] at h
    | some s =>
      cases hr : recover m s with
      | none => simp [hm, hs, hr] at h
      | some r =>
        simp only [hm, hs, hr, Bool.and_eq_true, beq_iff_eq] at h
        exact ⟨m, s, r, rfl, rfl, hr, h.2⟩

/-- C2: an attestation transaction is sent for an event only when the
address recovered from the personal-message signature of the claim equals,
lower-cased, both the address field the claim itself carries and the
submitter field of the on-chain event; failing either comparison, no
transaction is built for that event. -/
theorem C2_write_requires_both_address_checks
    (recover : String → String → Option String) (now : Int)
    (fetchGist : String → Option GistData) (registry_address : String)
    (send : TxArgs → Bool) (event : SubmissionEvent) (args : TxArgs)
    (h : (process_single_event recover now fetchGist registry_address send
        event).attempted = some args) :
    ∃ d m s a r,
      fetch_and_validate_gist recover now fetchGist event.gist_url = some d ∧
      d.message = some m ∧ d.signature = some s ∧ d.address = some a ∧
      recover m s = some r ∧
      Str.lower r = Str.lower a ∧
      Str.lower r = Str.lower event.submitter := by
  unfold process_single_event at h
  cases hd : fetch_and_validate_gist recover now fetchGist event.gist_url with
  | none => simp [hd] at h
  | some d =>
    cases hv : verify_signature_matches_address recover d event.submitter with
    | false => simp [hd, hv] at h
    | true =>
      obtain ⟨gid, _, _, _, hsig, _⟩ :=
        fetch_and_validate_gist_gates recover now fetchGist event.gist_url d hd
      obtain ⟨m, s, a, r, hm, hs, ha, hr, hra⟩ :=
        validate_signature_fields recover d hsig
      obtain ⟨m2, s2, r2, hm2, hs2, hr2, hrs⟩ :=
        verify_matches_fields recover d event.submitter hv
      rw [hm, Option.some.injEq] at hm2
      rw [hs, Option.some.injEq] at hs2
      subst hm2
      subst hs2
      rw [hr, Option.some.injEq] at hr2
      subst hr2
      exact ⟨d, m, s, a, r, rfl, hm, hs, ha, hr, hra, hrs⟩

/-- Witness for C2 at a concrete run in which the transaction is sent. -/
theorem C2_write_requires_both_address_checks_witness :
    ∃ d m s a r,
      fetch_and_validate_gist Samples.recA 1000 Samples.fetchA
        Samples.eventA.gist_url = some d ∧
      d.message = some m ∧ d.signature = some s ∧ d.address = some a ∧
      Samples.recA m s = some r ∧
      Str.lower r = Str.lower a ∧
      Str.lower r = Str.lower Samples.eventA.submitter :=
  C2_write_requires_both_address_checks Samples.recA 1000 Samples.fetchA
    Samples.regA Samples.sendTrue Samples.eventA
    ⟨Samples.addrA, "alice", "unknown"⟩ (by decide)

/-- C7 counterexample: a claim timestamp exactly 86400 seconds old at
validation time 1000000 is accepted by the code, where the claim requires
it to be rejected. -/
theorem C7_counterexample :
    _validate_timestamp 1000000 (Samples.tsDoc 913600) = true ∧
    (1000000 : Int) - 913600 = 86400 :=
  ⟨by decide, by decide⟩

/-- C7 as amended: at every validation time, a timestamp exactly 86400
seconds old is still accepted and rejection begins one second later at age
86401; a timestamp 301 seconds in the future is rejected and one 299
seconds in the future is accepted. -/
theorem C7_freshness_boundaries (now : Int) :
    _validate_timestamp now (Samples.tsDoc (now - 86400)) = true ∧
    _validate_timestamp now (Samples.tsDoc (now - 86401)) = false ∧
    _validate_timestamp now (Samples.tsDoc (now + 301)) = false ∧
    _validate_timestamp now (Samples.tsDoc (now + 299)) = true := by
  refine ⟨?_, ?_, ?_, ?_⟩ <;>
    · simp only [_validate_timestamp, Samples.tsDoc]
      repeat' split
      all_goals first | rfl | omega

/-- C8 counterexample: during a checkpoint write over a prior record of
100 on mainnet, the truncated file is one of the visible on-disk states;
it is not legible as a checkpoint record, and a concurrent read of it
degrades to the default 10000000, a value equal to neither the prior 100
nor the new 50 — so set does not keep exactly one legible state at every
point. -/
theorem C8_counterexample :
    StateManager.FileContent.truncated ∈
      update_states (.record 100 "mainnet") "mainnet" 50 ∧
    legible .truncated = false ∧
    get_last_processed_block "mainnet" .truncated = 10000000 ∧
    ¬((10000000 : Nat) = 100 ∨ (10000000 : Nat) = 50) :=
  ⟨by decide, rfl, rfl, by decide⟩

/-- C8 as amended: set writes the record in place, so only its final state
is legible: after a write over a readable prior file the stored record
holds the new value, but the file passes through the truncated state,
which is not legible as a checkpoint — the write-to-temporary-and-rename
guarantee does not hold. -/
theorem C8_in_place_write_final_state_only (prior : StateManager.FileContent)
    (network : String) (b : Nat) (h : prior ≠ .truncated) :
    update_last_processed_block prior network b = .ok (.record b network) ∧
    (update_states prior network b).getLast? = some (.record b network) ∧
    legible (.record b network) = true ∧
    StateManager.FileContent.truncated ∈ update_states prior network b ∧
    legible .truncated = false := by
  cases prior with
  | truncated => exact absurd rfl h
  | missing => exact ⟨rfl, rfl, rfl, by simp [update_states], rfl⟩
  | noKey => exact ⟨rfl, rfl, rfl, by simp [update_states], rfl⟩
  | record x y => exact ⟨rfl, rfl, rfl, by simp [update_states], rfl⟩

/-- Witness for C8 at a write of block 7 over a missing sepolia file. -/
theorem C8_in_place_write_final_state_only_witness :
    update_last_processed_block .missing "sepolia" 7 =
      .ok (.record 7 "sepolia") ∧
    (update_states .missing "sepolia" 7).getLast? =
      some (.record 7 "sepolia") ∧
    legible (.record 7 "sepolia") = true ∧
    StateManager.FileContent.truncated ∈ update_states .missing "sepolia" 7 ∧
    legible .truncated = false :=
  C8_in_place_write_final_state_only .missing "sepolia" 7 (by decide)

/-- C9 counterexample: a claim document that passes every validation gate
while carrying an extra gist_url key makes the writer send that value as
the gistUrl argument, not the literal unknown, so the claim as stated
fails at this input. -/
theorem C9_counterexample :
    (process_single_event Samples.recA 1000 Samples.fetchB Samples.regA
        Samples.sendTrue Samples.eventB).attempted =
      some ⟨Samples.addrA, "alice", "https://example.com/not-the-event-url"⟩ ∧
    ("https://example.com/not-the-event-url" : String) ≠ "unknown" :=
  ⟨by decide, by decide⟩

/-- C9 as amended: the gistUrl argument of every attestation transaction
is the gist_url entry of the validated claim document when that extra key
is present and the literal unknown otherwise — in particular it is the
literal unknown for every document holding only the required schema keys,
and the gist_url decoded from the on-chain event is never passed through. -/
theorem C9_gisturl_read_from_claim_document
    (recover : String → String → Option String) (now : Int)
    (fetchGist : String → Option GistData) (registry_address : String)
    (send : TxArgs → Bool) (event : SubmissionEvent) (args : TxArgs)
    (h : (process_single_event recover now fetchGist registry_address send
        event).attempted = some args) :
    ∃ d, fetch_and_validate_gist recover now fetchGist event.gist_url = some d ∧
      args.gist_url = d.gist_url.getD "unknown" := by
  unfold process_single_event at h
  cases hd : fetch_and_validate_gist recover now fetchGist event.gist_url with
  | none => simp [hd] at h
  | some d =>
    cases hv : verify_signature_matches_address recover d event.submitter with
    | false => simp [hd, hv] at h
    | true =>
      cases ha : d.address with
      | none => simp [hd, hv, ha] at h
      | some a =>
        cases hg : d.github_username with
        | none => simp [hd, hv, ha, hg] at h
        | some g =>
          simp only [hd, hv, ha, hg, if_true] at h
          unfold create_attestation at h
          by_cases hreg : registry_address = placeholder_address
          · simp [hreg] at h
          · simp only [if_neg hreg, Option.some.injEq] at h
            exact ⟨d, rfl, by rw [← h]⟩

/-- Witness for C9 at a run whose claim document holds only the required
keys, where the transaction goes out with the literal unknown. -/
theorem C9_gisturl_read_from_claim_document_witness :
    ∃ d, fetch_and_validate_gist Samples.recA 1000 Samples.fetchA
        Samples.eventA.gist_url = some d ∧
      TxArgs.gist_url ⟨Samples.addrA, "alice", "unknown"⟩ =
        d.gist_url.getD "unknown" :=
  C9_gisturl_read_from_claim_document Samples.recA 1000 Samples.fetchA
    Samples.regA Samples.sendTrue Samples.eventA
    ⟨Samples.addrA, "alice", "unknown"⟩ (by decide)

end Theorems
